import Mathlib

/-!
Shallow embedding of the `candidate_models` repository
(`candidate_models/__init__.py`, `candidate_models/analyze/ceiling.py`,
`candidate_models/analyze/figures.py`).

External collaborators (the `brainscore` library, activation extraction,
`result_caching`, matplotlib) are modelled as parameters: functions supplied
through an environment record.  Python numbers are modelled as rationals,
Python values that may be either a string or an arbitrary object as `PyVal`,
and Python `assert` failures as the `Except.error` case of `Except String`.
Side effects of plotting are modelled as lists of drawing events.
-/

/-- A Python value that is either a string or some non-string object
(identified by a numeric id).  `score_model` accepts such values for its
`model` and `benchmark` arguments. -/
inductive PyVal
  | str (s : String)
  | obj (id : Nat)
deriving DecidableEq, Repr

/-- `isinstance(v, str)` on a `PyVal`. -/
def PyVal.isStr : PyVal → Bool
  | .str _ => true
  | .obj _ => false

/-- Python truthiness of a `PyVal`: a string is falsy exactly when it is
empty; a non-string object is truthy (as all the relevant objects are). -/
def PyVal.truthy : PyVal → Bool
  | .str s => !s.isEmpty
  | .obj _ => true

/-- Python `a or b` where `a` is an optional argument that defaults to
`None`: `None or b` is `b`, and a falsy value (such as `''`) also falls
through to `b`. -/
def pyOr (a : Option PyVal) (b : PyVal) : PyVal :=
  match a with
  | none => b
  | some v => if v.truthy then v else b

/-- A labeled score structure: an xarray-like value carrying an
`aggregation` coordinate (for example `['center']`) and the matching data
values. -/
structure AggScore where
  aggregation : List String
  values : List ℚ
deriving DecidableEq, Repr

/-- The external collaborators of `score_model`: the known-model layer
table `model_layers`, the `infer_image_size` helper, and the two downstream
scoring routines (`BrainScore().__call__` and the cached `_score_model`),
each taking the arguments the Python code passes to it. -/
structure ScoreEnv where
  model_layers : String → List String
  infer_image_size : PyVal → Nat
  brain_score_run : PyVal → PyVal → List String → String → Nat → Nat → AggScore
  score_model_run : PyVal → PyVal → List String → PyVal → PyVal → String → Nat → Nat → AggScore

/-- `layers = model_layers[model] if layers is None else layers` in
`score_model` (the lookup is only reached when `model` is a string). -/
def resolved_layers (env : ScoreEnv) (model : PyVal) (layers : Option (List String)) :
    List String :=
  match layers with
  | some ls => ls
  | none => env.model_layers (match model with | .str s => s | .obj _ => "")

/-- `image_size = image_size or infer_image_size(model_identifier)` in
`score_model`: `None` and the falsy `0` both fall through to the inferred
size. -/
def resolved_image_size (env : ScoreEnv) (model_identifier : PyVal)
    (image_size : Option Nat) : Nat :=
  match image_size with
  | some n => if n ≠ 0 then n else env.infer_image_size model_identifier
  | none => env.infer_image_size model_identifier

/-- Embedding of `score_model` from `candidate_models/__init__.py`.
The three `assert` statements become `Except.error` results; otherwise the
identifiers are resolved with Python `or` and the call is dispatched to
`BrainScore()` when the resolved benchmark identifier is `'brain-score'`
and to `_score_model` otherwise. -/
def score_model (env : ScoreEnv) (model : PyVal) (model_identifier : Option PyVal)
    (layers : Option (List String)) (weights : String) (pca_components : Nat)
    (image_size : Option Nat) (benchmark : PyVal) (benchmark_identifier : Option PyVal) :
    Except String AggScore :=
  if layers = none ∧ model.isStr = false then
    .error "need either known model string or list of layers"
  else if model_identifier = none ∧ model.isStr = false then
    .error "need either known model string or model_identifier"
  else if benchmark_identifier = none ∧ benchmark.isStr = false then
    .error "need either known benchmark string or benchmark_identifier"
  else if pyOr benchmark_identifier benchmark = .str "brain-score" then
    .ok (env.brain_score_run model (pyOr model_identifier model)
      (resolved_layers env model layers) weights pca_components
      (resolved_image_size env (pyOr model_identifier model) image_size))
  else
    .ok (env.score_model_run model (pyOr model_identifier model)
      (resolved_layers env model layers) benchmark (pyOr benchmark_identifier benchmark)
      weights pca_components
      (resolved_image_size env (pyOr model_identifier model) image_size))

/-- `True` exactly when the embedded `score_model` raised an
`AssertionError`. -/
def is_assertion_error : Except String AggScore → Bool
  | .error _ => true
  | .ok _ => false

/-- A per-benchmark score as produced by `_score_model`: one entry per
layer (the `layer` dimension), each carrying `center` and `error`
aggregation values. -/
structure LayerScore where
  layers : List String
  center : List ℚ
  error : List ℚ
deriving DecidableEq, Repr

/-- numpy `argmax` over a list: the index of the first maximal element
(`0` on the empty list, where numpy would raise). -/
def argmaxIdx : List ℚ → Nat
  | [] => 0
  | [_] => 0
  | x :: y :: rest =>
    let j := argmaxIdx (y :: rest)
    if x < (y :: rest).getD j 0 then j + 1 else 0

/-- The maximum of a list of rationals (`0` on the empty list). -/
def listMax : List ℚ → ℚ
  | [] => 0
  | [x] => x
  | x :: y :: rest => max x (listMax (y :: rest))

/-- `best_score` inside `BrainScore.__call__`: select the layer whose
`center` aggregation is maximal (numpy `argmax`) and read off its `center`
value. -/
def best_layer_center (s : LayerScore) : ℚ :=
  s.center.getD (argmaxIdx s.center) 0

/-- `BrainScore._benchmark_identifiers`. -/
def benchmark_identifiers : List String :=
  ["dicarlo.Majaj2015.V4", "dicarlo.Majaj2015.IT"]

/-- Embedding of `BrainScore.__call__`: `run` stands for the recursive
`score_model` call on one constituent benchmark (returning that
benchmark's per-layer score).  For each constituent benchmark the best
layer's `center` value is taken, and the returned labeled score holds the
mean of those values under the single `center` aggregation. -/
def brain_score_aggregate (run : String → LayerScore) : AggScore :=
  let bests := benchmark_identifiers.map (fun b => best_layer_center (run b))
  ⟨["center"], [bests.sum / (bests.length : ℚ)]⟩

/-- A model assembly as consumed by a benchmark: the activations carry a
`layer` dimension (`layers`) and per-layer data (kept abstract as a
rational per layer name). -/
structure Assembly where
  layers : List String
  payload : String → ℚ

/-- `assembly.sel(layer=l)`: restrict the assembly to a single layer. -/
def Assembly.selLayer (a : Assembly) (l : String) : Assembly :=
  ⟨[l], a.payload⟩

/-- Python `needle in hay` on strings, as a prefix check at every suffix
of the character list. -/
def charsHavePrefix : List Char → List Char → Bool
  | [], _ => true
  | _ :: _, [] => false
  | a :: as, b :: bs => a = b && charsHavePrefix as bs

/-- Helper for `strContains`: does `needle` occur in the given character
list? -/
def charsContain (needle : List Char) : List Char → Bool
  | [] => charsHavePrefix needle []
  | c :: cs => charsHavePrefix needle (c :: cs) || charsContain needle cs

/-- Python `needle in hay` for strings (substring containment). -/
def strContains (hay needle : String) : Bool :=
  charsContain needle.data hay.data

/-- The result of `_score_model`: either the benchmark applied directly to
the whole assembly, or the `CartesianProduct(dividers=['layer'])`
transform: one benchmark application per layer slice. -/
inductive ScoreOutcome
  | plain (s : AggScore)
  | perLayer (s : List (String × AggScore))
deriving DecidableEq, Repr

/-- `CartesianProduct(dividers=['layer'])` applied to an assembly with a
benchmark: the benchmark is applied to each single-layer slice and the
results are collected along the `layer` dimension. -/
def cartesian_product_layer (apply : Assembly → AggScore) (a : Assembly) :
    List (String × AggScore) :=
  a.layers.map (fun l => (l, apply (a.selLayer l)))

/-- Embedding of the scoring part of `_score_model`
(`candidate_models/__init__.py`): `apply` is the loaded benchmark.  When
the benchmark identifier contains `'temporal'` the benchmark is applied to
the model assembly directly; otherwise the cartesian product over the
`layer` divider is applied. -/
def score_model_core (apply : Assembly → AggScore) (assembly : Assembly)
    (benchmark_identifier : String) : ScoreOutcome :=
  if strContains benchmark_identifier "temporal" = true then
    .plain (apply assembly)
  else
    .perLayer (cartesian_product_layer apply assembly)

/-- Exceptions that the curve-fitting block of `ceiling.plot` may raise:
the two caught classes and any other exception (identified by a code). -/
inductive FitExc
  | runtimeError
  | optimizeWarning
  | other (code : Nat)
deriving DecidableEq, Repr

/-- Drawing events emitted by `ceiling.plot` for one region's axis. -/
inductive CeilEvent
  | scatter (region : String)
  | errorbar (region : String)
  | fitline (region : String)
deriving DecidableEq, Repr

/-- `True` exactly when the fitting block raised an exception that the
`except (RuntimeError, OptimizeWarning)` clause does not catch. -/
def is_uncaught : Except FitExc (ℚ × ℚ) → Bool
  | .error (.other _) => true
  | _ => false

/-- One iteration of the region loop in `ceiling.plot`: the scatter and
error bars are drawn first; then the fitting block (`curve_fit`, `sigmoid`,
`pearsonr`, modelled by `fit`, which yields the Pearson `(r, p)` pair) runs
inside `try`.  On success the fit line is drawn when `p < 0.05`; a
`RuntimeError` or `OptimizeWarning` is swallowed by `pass`; any other
exception escapes (second component). -/
def plot_region (fit : String → Except FitExc (ℚ × ℚ)) (region : String) :
    List CeilEvent × Option FitExc :=
  match fit region with
  | .ok rp =>
    ([.scatter region, .errorbar region] ++
      (if rp.2 < 1/20 then [.fitline region] else []), none)
  | .error .runtimeError => ([.scatter region, .errorbar region], none)
  | .error .optimizeWarning => ([.scatter region, .errorbar region], none)
  | .error (.other c) => ([.scatter region, .errorbar region], some (.other c))

/-- The region loop of `ceiling.plot` over the list of regions: events are
accumulated in order; an uncaught exception aborts the loop and propagates
(second component). -/
def ceiling_plot (fit : String → Except FitExc (ℚ × ℚ)) :
    List String → List CeilEvent × Option FitExc
  | [] => ([], none)
  | r :: rs =>
    match plot_region fit r with
    | (evs, some e) => (evs, some e)
    | (evs, none) =>
      let rest := ceiling_plot fit rs
      (evs ++ rest.1, rest.2)

/-- `PaperFigures._save_formats`. -/
def save_formats : List String := ["svg", "pdf", "png"]

/-- `os.path.join` for two components. -/
def path_join (a b : String) : String := a ++ "/" ++ b

/-- `PaperFigures._savedir`: `os.path.join(dirname(__file__), '..', '..',
'results')`, the repository's `results` directory relative to the package
directory of `figures.py`. -/
def results_dir (package_dir : String) : String :=
  path_join (path_join (path_join package_dir "..") "..") "results"

/-- `PaperFigures.save`: the sequence of paths written for one figure
name, one per save format in order. -/
def figure_save_paths (savedir name : String) : List String :=
  save_formats.map (fun ext => path_join savedir (name ++ "." ++ ext))

/-- `BrainScorePlot._nonbasenet_color`. -/
def nonbasenet_color : String := "#078930"

/-- `BrainScorePlot._basenet_color`. -/
def basenet_color : String := "#878789"

/-- `BrainScorePlot._nonbasenet_alpha`. -/
def nonbasenet_alpha : ℚ := 7/10

/-- `BrainScorePlot._basenet_alpha`. -/
def basenet_alpha : ℚ := 3/10

/-- Colour choice for one model's scatter point in `BrainScorePlot.apply`.
`isBasenet` stands for `candidate_models.analyze.is_basenet`, whose
definition lives outside the embedded files; it is kept as an abstract
predicate. -/
def point_color (isBasenet : String → Bool) (model : String) : String :=
  if !(isBasenet model) then nonbasenet_color else basenet_color

/-- Alpha choice for one model's scatter point in `BrainScorePlot.apply`. -/
def point_alpha (isBasenet : String → Bool) (model : String) : ℚ :=
  if !(isBasenet model) then nonbasenet_alpha else basenet_alpha

/-- One row of the result table collected by `DataCollector`. -/
structure Row where
  model : String
  benchmark : String
  score : ℚ
  error : ℚ
deriving DecidableEq, Repr

/-- `IndividualPlot.collect_results`: drop the three cornet rows, then
drop every row whose model is a basenet. -/
def individual_collect_results (isBasenet : String → Bool) (data : List Row) :
    List Row :=
  let d1 := data.filter (fun r => !(["cornet_z", "cornet_r", "cornet_r2"].contains r.model))
  d1.filter (fun r => !(isBasenet r.model))

/-- Rendering of a rational to two decimal places, as Python's
`f"{r:.2f}"` does for the Pearson coefficient. -/
def format_two_decimals (r : ℚ) : String :=
  let c : Int := round (r * 100)
  (if c < 0 then "-" else "") ++
    toString (c.natAbs / 100) ++ "." ++
    (if c.natAbs % 100 < 10 then "0" else "") ++ toString (c.natAbs % 100)

/-- The annotation text chosen by `Plot.indicate_correlation` from the
Pearson `(r, p)` pair: the formatted coefficient below the significance
threshold `0.05`, `"r n.s."` otherwise. -/
def indicate_correlation_text (r p : ℚ) : String :=
  if p < 1/20 then "r = " ++ format_two_decimals r else "r n.s."

/-- Drawing events emitted when highlighting one model. -/
inductive HlEvent
  | line (x1 y1 x2 y2 : ℚ)
  | text (x y : ℚ) (label : String)
deriving DecidableEq, Repr

/-- `Plot._highlight`: draw a short leader line from the point and place
the model label at its end (offsets are 2 % of the axis ranges). -/
def plot_highlight (xlim ylim : ℚ × ℚ) (label : String) (x y : ℚ) : List HlEvent :=
  let dx := (xlim.2 - xlim.1) * (1/50)
  let dy := (ylim.2 - ylim.1) * (1/50)
  [.line x y (x + dx) (y + dy), .text (x + dx) (y + dy) label]

/-- `BrainScorePlot._highlight`: return without drawing when the ImageNet
x-coordinate exceeds 72, otherwise defer to `Plot._highlight`. -/
def brain_score_plot_highlight (xlim ylim : ℚ × ℚ) (label : String) (x y : ℚ) :
    List HlEvent :=
  if x > 72 then [] else plot_highlight xlim ylim label x y

/-- `BrainScoreZoomPlot._highlight`: delegate straight to
`Plot._highlight`, bypassing `BrainScorePlot`'s guard. -/
def brain_score_zoom_highlight (xlim ylim : ℚ × ℚ) (label : String) (x y : ℚ) :
    List HlEvent :=
  plot_highlight xlim ylim label x y

/-- A concrete environment used to evaluate `score_model` on closed
inputs: the two downstream scoring routines return distinguishable
scores. -/
def envC1 : ScoreEnv where
  model_layers := fun _ => []
  infer_image_size := fun _ => 224
  brain_score_run := fun _ _ _ _ _ _ => ⟨["center"], [1]⟩
  score_model_run := fun _ _ _ _ _ _ _ _ => ⟨["center"], [0]⟩

/-- A concrete per-benchmark scorer used to evaluate the Brain-Score
aggregation on closed inputs. -/
def run0 : String → LayerScore := fun b =>
  if b = "dicarlo.Majaj2015.V4" then ⟨["l1", "l2"], [1/2, 3/4], [0, 0]⟩
  else ⟨["l1"], [1/4], [0]⟩

/-- A concrete benchmark application used to evaluate `_score_model` on
closed inputs. -/
def app0 : Assembly → AggScore := fun a => ⟨["center"], [(a.layers.length : ℚ)]⟩

/-- A concrete two-layer assembly used to evaluate `_score_model` on
closed inputs. -/
def asm0 : Assembly := ⟨["conv1", "fc7"], fun _ => 0⟩

/-- A concrete fitting-block outcome used to evaluate the ceiling plot on
closed inputs: the fit raises `RuntimeError` on region `"V4"` and succeeds
on every other region. -/
def fit0 : String → Except FitExc (ℚ × ℚ) := fun region =>
  if region = "V4" then .error .runtimeError else .ok (1, 1/100)

/-- A concrete basenet predicate used to evaluate the plotting decisions
on closed inputs. -/
def bn0 : String → Bool := fun model => model = "basenet-x"

/-- A concrete result table used to evaluate `collect_results` on closed
inputs. -/
def data0 : List Row :=
  [⟨"alexnet", "ImageNet", 1/2, 0⟩, ⟨"basenet-x", "ImageNet", 1/4, 0⟩]

/-- A concrete per-benchmark scorer whose behavioral-predictivity score
(on the behavioral benchmark `dicarlo.Rajalingham2018`) is high; it agrees
with `runBehaviorLow` on every other benchmark. -/
def runBehaviorHigh : String → LayerScore := fun b =>
  if b = "dicarlo.Rajalingham2018" then ⟨["l1"], [9/10], [0]⟩
  else ⟨["l1"], [1/2], [0]⟩

/-- A concrete per-benchmark scorer whose behavioral-predictivity score is
low; it agrees with `runBehaviorHigh` on every benchmark other than
`dicarlo.Rajalingham2018`. -/
def runBehaviorLow : String → LayerScore := fun b =>
  if b = "dicarlo.Rajalingham2018" then ⟨["l1"], [1/10], [0]⟩
  else ⟨["l1"], [1/2], [0]⟩

/-- Claim C3: `score_model` raises an `AssertionError` if and only if at
least one of the following holds: `layers` is `None` and `model` is not a
string; `model_identifier` is `None` and `model` is not a string;
`benchmark_identifier` is `None` and `benchmark` is not a string.  When
none of these hold, no assertion fires. -/
theorem score_model_assertion_conditions (env : ScoreEnv) (model : PyVal)
    (mi : Option PyVal) (layers : Option (List String)) (weights : String)
    (pca : Nat) (imgsz : Option Nat) (benchmark : PyVal) (bi : Option PyVal) :
    is_assertion_error (score_model env model mi layers weights pca imgsz benchmark bi)
        = true ↔
      ((layers = none ∧ model.isStr = false) ∨ (mi = none ∧ model.isStr = false) ∨
        (bi = none ∧ benchmark.isStr = false)) := by
  unfold score_model
  split_ifs with h1 h2 h3 h4 <;> simp_all [is_assertion_error]

/-- Claim C1 (counterexample): with `benchmark_identifier = ''` (which is
not `None`) and `benchmark = 'brain-score'`, the claim's resolution rule
keeps the empty identifier, which differs from `'brain-score'`, so the
claim predicts the `_score_model` branch; the code however falls back to
the benchmark string (Python `or` on the falsy `''`) and takes the
`BrainScore` branch. -/
theorem score_model_branch_counterexample :
    score_model envC1 (.str "alexnet") (some (.str "m")) (some ["l"]) "imagenet" 1000
        (some 224) (.str "brain-score") (some (.str "")) =
      .ok (envC1.brain_score_run (.str "alexnet") (.str "m") ["l"] "imagenet" 1000 224) ∧
    score_model envC1 (.str "alexnet") (some (.str "m")) (some ["l"]) "imagenet" 1000
        (some 224) (.str "brain-score") (some (.str "")) ≠
      .ok (envC1.score_model_run (.str "alexnet") (.str "m") ["l"] (.str "brain-score")
        (.str "") "imagenet" 1000 224) := by
  refine ⟨rfl, fun h => ?_⟩
  have h' : AggScore.mk ["center"] [1] = AggScore.mk ["center"] [0] := Except.ok.inj h
  have hv := congrArg AggScore.values h'
  simp at hv

/-- Claim C1 (amended): when no assertion fires, exactly one of two
branches is taken based on the resolved benchmark identifier
(`benchmark_identifier or benchmark`, so `None` and falsy values such as
`''` fall back to the benchmark): if it equals `'brain-score'`,
`score_model` returns the result of invoking `BrainScore()` on the model;
otherwise it returns the result of `_score_model` on the given benchmark,
in both cases a labeled score structure. -/
theorem score_model_branching (env : ScoreEnv) (model : PyVal) (mi : Option PyVal)
    (layers : Option (List String)) (weights : String) (pca : Nat)
    (imgsz : Option Nat) (benchmark : PyVal) (bi : Option PyVal)
    (hl : ¬(layers = none ∧ model.isStr = false))
    (hm : ¬(mi = none ∧ model.isStr = false))
    (hb : ¬(bi = none ∧ benchmark.isStr = false)) :
    (pyOr bi benchmark = .str "brain-score" →
      score_model env model mi layers weights pca imgsz benchmark bi =
        .ok (env.brain_score_run model (pyOr mi model)
          (resolved_layers env model layers) weights pca
          (resolved_image_size env (pyOr mi model) imgsz))) ∧
    (pyOr bi benchmark ≠ .str "brain-score" →
      score_model env model mi layers weights pca imgsz benchmark bi =
        .ok (env.score_model_run model (pyOr mi model)
          (resolved_layers env model layers) benchmark (pyOr bi benchmark)
          weights pca (resolved_image_size env (pyOr mi model) imgsz))) := by
  unfold score_model
  rw [if_neg hl, if_neg hm, if_neg hb]
  constructor <;> intro h <;> simp [h]

/-- Witness for `score_model_branching` at a concrete input taking the
`BrainScore` branch. -/
theorem score_model_branching_witness :
    score_model envC1 (.str "alexnet") none (some ["l"]) "imagenet" 1000 (some 224)
        (.str "brain-score") none =
      .ok (envC1.brain_score_run (.str "alexnet") (pyOr none (.str "alexnet"))
        (resolved_layers envC1 (.str "alexnet") (some ["l"])) "imagenet" 1000
        (resolved_image_size envC1 (pyOr none (.str "alexnet")) (some 224))) :=
  (score_model_branching envC1 (.str "alexnet") none (some ["l"]) "imagenet" 1000
    (some 224) (.str "brain-score") none (by simp [PyVal.isStr])
    (by simp [PyVal.isStr]) (by simp [PyVal.isStr])).1 rfl

/-- Claim C9: an empty string passed as `model_identifier` (and as
`benchmark_identifier`) satisfies the `is not None` assertion but is
silently replaced through Python `or` by the `model` (respectively
`benchmark`) argument; in particular, for a non-string model with
`model_identifier = ''`, no assertion fires and the model object itself is
passed on as the identifier. -/
theorem score_model_truthy_fallback (env : ScoreEnv) (k : Nat) (ls : List String)
    (weights : String) (pca : Nat) (bs : String) (h : bs ≠ "brain-score") :
    score_model env (.obj k) (some (.str "")) (some ls) weights pca none (.str bs)
        (some (.str "")) =
      .ok (env.score_model_run (.obj k) (.obj k) ls (.str bs) (.str bs) weights pca
        (env.infer_image_size (.obj k))) := by
  simp [score_model, pyOr, PyVal.truthy, PyVal.isStr, resolved_layers,
    resolved_image_size, String.isEmpty, h]

/-- Witness for `score_model_truthy_fallback` at a concrete benchmark
string. -/
theorem score_model_truthy_fallback_witness :
    score_model envC1 (.obj 7) (some (.str "")) (some ["l"]) "imagenet" 1000 none
        (.str "dicarlo.Majaj2015.IT") (some (.str "")) =
      .ok (envC1.score_model_run (.obj 7) (.obj 7) ["l"] (.str "dicarlo.Majaj2015.IT")
        (.str "dicarlo.Majaj2015.IT") "imagenet" 1000
        (envC1.infer_image_size (.obj 7))) :=
  score_model_truthy_fallback envC1 7 ["l"] "imagenet" 1000 "dicarlo.Majaj2015.IT"
    (by decide)

/-- The element selected by numpy `argmax` is the maximum of a nonempty
list. -/
theorem getD_argmaxIdx_eq_listMax :
    ∀ l : List ℚ, l ≠ [] → l.getD (argmaxIdx l) 0 = listMax l
  | [], h => absurd rfl h
  | [_], _ => rfl
  | x :: y :: rest, _ => by
    have ih := getD_argmaxIdx_eq_listMax (y :: rest) (by simp)
    simp only [argmaxIdx, listMax]
    by_cases hx : x < (y :: rest).getD (argmaxIdx (y :: rest)) 0
    · rw [if_pos hx, List.getD_cons_succ, ih]
      rw [ih] at hx
      exact (max_eq_right (le_of_lt hx)).symm
    · rw [if_neg hx, List.getD_cons_zero]
      rw [ih] at hx
      exact (max_eq_left (le_of_not_lt hx)).symm

/-- Claim C2 (counterexample): the aggregate Brain-Score does not combine
behavioral-predictivity scores.  `BrainScore._benchmark_identifiers`
consists of the two neural benchmarks only — the behavioral benchmark
`dicarlo.Rajalingham2018` is absent (behavior is a `TODO` in the code) —
and two scorers that differ precisely in their behavioral-predictivity
score yield the same aggregate Brain-Score. -/
theorem brain_score_no_behavior_counterexample :
    benchmark_identifiers = ["dicarlo.Majaj2015.V4", "dicarlo.Majaj2015.IT"] ∧
    "dicarlo.Rajalingham2018" ∉ benchmark_identifiers ∧
    runBehaviorHigh "dicarlo.Rajalingham2018" ≠ runBehaviorLow "dicarlo.Rajalingham2018" ∧
    brain_score_aggregate runBehaviorHigh = brain_score_aggregate runBehaviorLow :=
  ⟨rfl, by decide, by norm_num [runBehaviorHigh, runBehaviorLow], rfl⟩

/-- Claim C2 (amended): under the `'brain-score'` benchmark, the aggregate
combines the neural-predictivity scores of the two constituent neural
benchmarks `dicarlo.Majaj2015.V4` and `dicarlo.Majaj2015.IT` (behavioral
predictivity is not yet included): for each constituent benchmark the best
layer is the one with maximal `center` aggregation value, and the returned
score's single `center` value is the mean of the per-benchmark best-layer
center scores. -/
theorem brain_score_center_mean (run : String → LayerScore)
    (h1 : (run "dicarlo.Majaj2015.V4").center ≠ [])
    (h2 : (run "dicarlo.Majaj2015.IT").center ≠ []) :
    brain_score_aggregate run =
      ⟨["center"],
        [(listMax (run "dicarlo.Majaj2015.V4").center +
          listMax (run "dicarlo.Majaj2015.IT").center) / 2]⟩ := by
  have e1 : best_layer_center (run "dicarlo.Majaj2015.V4") =
      listMax (run "dicarlo.Majaj2015.V4").center :=
    getD_argmaxIdx_eq_listMax _ h1
  have e2 : best_layer_center (run "dicarlo.Majaj2015.IT") =
      listMax (run "dicarlo.Majaj2015.IT").center :=
    getD_argmaxIdx_eq_listMax _ h2
  simp [brain_score_aggregate, benchmark_identifiers, e1, e2]

/-- Witness for `brain_score_center_mean` at a concrete per-benchmark
scorer. -/
theorem brain_score_center_mean_witness :
    brain_score_aggregate run0 =
      ⟨["center"],
        [(listMax (run0 "dicarlo.Majaj2015.V4").center +
          listMax (run0 "dicarlo.Majaj2015.IT").center) / 2]⟩ :=
  brain_score_center_mean run0 (by decide) (by decide)

/-- Claim C4: when the benchmark identifier does not contain `'temporal'`,
`_score_model` applies the benchmark through the cartesian product over
the `layer` divider; when it does, the benchmark is applied directly to
the model assembly with no cartesian-product transform. -/
theorem score_model_core_branches (apply : Assembly → AggScore) (a : Assembly)
    (bid : String) :
    (strContains bid "temporal" = true →
      score_model_core apply a bid = .plain (apply a)) ∧
    (strContains bid "temporal" = false →
      score_model_core apply a bid =
        .perLayer (a.layers.map (fun l => (l, apply (a.selLayer l))))) := by
  constructor <;> intro h <;> simp [score_model_core, cartesian_product_layer, h]

/-- Witness for `score_model_core_branches` at concrete benchmark
identifiers exercising both branches. -/
theorem score_model_core_branches_witness :
    score_model_core app0 asm0 "dicarlo.Majaj2015.temporal.IT" = .plain (app0 asm0) ∧
    score_model_core app0 asm0 "dicarlo.Majaj2015.IT" =
      .perLayer (asm0.layers.map (fun l => (l, app0 (asm0.selLayer l)))) :=
  ⟨(score_model_core_branches app0 asm0 "dicarlo.Majaj2015.temporal.IT").1 (by decide),
   (score_model_core_branches app0 asm0 "dicarlo.Majaj2015.IT").2 (by decide)⟩

/-- The scatter and error bars of a region are always drawn, before the
fitting block runs. -/
theorem plot_region_base_events (fit : String → Except FitExc (ℚ × ℚ))
    (region : String) :
    CeilEvent.scatter region ∈ (plot_region fit region).1 ∧
    CeilEvent.errorbar region ∈ (plot_region fit region).1 := by
  unfold plot_region
  cases h : fit region with
  | ok rp => simp
  | error e => cases e <;> simp

/-- A region's iteration escapes with an exception exactly when the
fitting block raised something other than `RuntimeError` or
`OptimizeWarning`. -/
theorem plot_region_exc_none (fit : String → Except FitExc (ℚ × ℚ))
    (region : String) :
    (plot_region fit region).2 = none ↔ is_uncaught (fit region) = false := by
  unfold plot_region is_uncaught
  cases h : fit region with
  | ok rp => simp
  | error e => cases e <;> simp

/-- Claim C5: exception suppression around the sigmoid fit is narrow.
The loop over regions finishes normally exactly when no region's fitting
block raises anything other than `RuntimeError` or `OptimizeWarning`
(anything else propagates out of `plot`), and when only caught exceptions
occur every region's scatter and error bars are drawn and the loop reaches
every region. -/
theorem ceiling_plot_narrow_catch (fit : String → Except FitExc (ℚ × ℚ)) :
    ∀ regions : List String,
    ((ceiling_plot fit regions).2 = none ↔
      ∀ r ∈ regions, is_uncaught (fit r) = false) ∧
    ((∀ r ∈ regions, is_uncaught (fit r) = false) → ∀ r ∈ regions,
      CeilEvent.scatter r ∈ (ceiling_plot fit regions).1 ∧
      CeilEvent.errorbar r ∈ (ceiling_plot fit regions).1)
  | [] => by simp [ceiling_plot]
  | r :: rs => by
    have ih := ceiling_plot_narrow_catch fit rs
    have hbase := plot_region_base_events fit r
    have hexc := plot_region_exc_none fit r
    rcases hpr : plot_region fit r with ⟨evs, exc⟩
    rw [hpr] at hbase hexc
    simp only [ceiling_plot]
    rw [hpr]
    cases exc with
    | some e =>
      dsimp only
      have hu : ¬ (is_uncaught (fit r) = false) := fun hf => by
        have := hexc.mpr hf
        simp at this
      refine ⟨⟨fun h => by simp at h, fun hall => absurd (hall r (by simp)) hu⟩,
        fun hall => absurd (hall r (by simp)) hu⟩
    | none =>
      dsimp only
      have hr : is_uncaught (fit r) = false := hexc.mp rfl
      constructor
      · rw [ih.1, List.forall_mem_cons]
        simp [hr]
      · intro hall r' hr'
        rcases List.mem_cons.mp hr' with rfl | hmem
        · exact ⟨List.mem_append_left _ hbase.1, List.mem_append_left _ hbase.2⟩
        · have hmems := (ih.2 (fun x hx => hall x (List.mem_cons_of_mem _ hx))) r' hmem
          exact ⟨List.mem_append_right _ hmems.1, List.mem_append_right _ hmems.2⟩

/-- Witness for `ceiling_plot_narrow_catch`: a run where region `"V4"`'s
fit raises `RuntimeError` still draws that region's scatter and error
bars. -/
theorem ceiling_plot_narrow_catch_witness :
    CeilEvent.scatter "V4" ∈ (ceiling_plot fit0 ["V4", "IT"]).1 ∧
    CeilEvent.errorbar "V4" ∈ (ceiling_plot fit0 ["V4", "IT"]).1 :=
  (ceiling_plot_narrow_catch fit0 ["V4", "IT"]).2 (by decide) "V4" (by decide)

/-- Claim C6: for every figure name, `PaperFigures.save` writes exactly
three output artifacts, one per format in the order svg, pdf, png, each at
`<results dir>/<name>.<extension>` under the repository's results
directory. -/
theorem paper_figures_save_paths (package_dir name : String) :
    figure_save_paths (results_dir package_dir) name =
      [results_dir package_dir ++ "/" ++ (name ++ ".svg"),
       results_dir package_dir ++ "/" ++ (name ++ ".pdf"),
       results_dir package_dir ++ "/" ++ (name ++ ".png")] ∧
    (figure_save_paths (results_dir package_dir) name).length = 3 := by
  refine ⟨?_, rfl⟩
  simp only [figure_save_paths, save_formats, List.map, path_join]
  rw [String.append_assoc name "." "svg", String.append_assoc name "." "pdf",
    String.append_assoc name "." "png"]
  rfl

/-- Claim C7: in `BrainScorePlot.apply` a model's scatter point gets the
basenet colour `'#878789'` with alpha `0.3` exactly when `is_basenet`
holds, and the non-basenet colour `'#078930'` with alpha `0.7` exactly
otherwise; and `IndividualPlot.collect_results` excludes every row whose
model is a basenet. -/
theorem basenet_treatment (bn : String → Bool) (model : String) (data : List Row) :
    ((point_color bn model = basenet_color ∧ point_alpha bn model = basenet_alpha) ↔
      bn model = true) ∧
    ((point_color bn model = nonbasenet_color ∧
        point_alpha bn model = nonbasenet_alpha) ↔ bn model = false) ∧
    (∀ r ∈ individual_collect_results bn data, bn r.model = false) := by
  refine ⟨?_, ?_, ?_⟩
  · cases h : bn model <;>
      simp [point_color, point_alpha, h, basenet_color, nonbasenet_color,
        basenet_alpha, nonbasenet_alpha]
  · cases h : bn model <;>
      simp [point_color, point_alpha, h, basenet_color, nonbasenet_color,
        basenet_alpha, nonbasenet_alpha]
  · intro r hr
    unfold individual_collect_results at hr
    have h2 := (List.mem_filter.mp hr).2
    simpa using h2

/-- Witness for `basenet_treatment`: a non-basenet row surviving
`collect_results`. -/
theorem basenet_treatment_witness : bn0 "alexnet" = false :=
  (basenet_treatment bn0 "x" data0).2.2 ⟨"alexnet", "ImageNet", 1/2, 0⟩
    (by simp [individual_collect_results, data0, bn0, List.filter])

/-- The formatted-coefficient annotation is never the literal
`"r n.s."`. -/
theorem formatted_annotation_ne_ns (s : String) : "r = " ++ s ≠ "r n.s." := by
  intro h
  have hd : ("r = " ++ s).data = "r n.s.".data := congrArg String.data h
  rw [show ("r = " ++ s).data = 'r' :: ' ' :: '=' :: ' ' :: s.data from rfl] at hd
  rw [show "r n.s.".data = ['r', ' ', 'n', '.', 's', '.'] from rfl] at hd
  simp at hd

/-- Claim C8: the correlation annotation renders the Pearson coefficient
as `r = <value to two decimals>` exactly when the p-value is strictly
below the significance threshold `0.05`, and the text `"r n.s."` exactly
otherwise. -/
theorem correlation_annotation (r p : ℚ) :
    (indicate_correlation_text r p = "r = " ++ format_two_decimals r ↔ p < 1/20) ∧
    (indicate_correlation_text r p = "r n.s." ↔ ¬ p < 1/20) := by
  unfold indicate_correlation_text
  by_cases hp : p < 1/20
  · rw [if_pos hp]
    exact ⟨⟨fun _ => hp, fun _ => rfl⟩,
      ⟨fun h => absurd h (formatted_annotation_ne_ns _), fun h => absurd hp h⟩⟩
  · rw [if_neg hp]
    exact ⟨⟨fun h => absurd h.symm (formatted_annotation_ne_ns _), fun h => absurd h hp⟩,
      ⟨fun _ => hp, fun _ => rfl⟩⟩

/-- Claim C10: `BrainScorePlot._highlight` draws nothing for a highlighted
model whose ImageNet x-coordinate exceeds 72, while
`BrainScoreZoomPlot._highlight` delegates to the base `Plot._highlight`
and therefore draws the leader line and label regardless of `x`. -/
theorem highlight_x_guard (xlim ylim : ℚ × ℚ) (label : String) (x y : ℚ)
    (h : x > 72) :
    brain_score_plot_highlight xlim ylim label x y = [] ∧
    brain_score_zoom_highlight xlim ylim label x y =
      plot_highlight xlim ylim label x y ∧
    brain_score_zoom_highlight xlim ylim label x y ≠ [] := by
  refine ⟨?_, rfl, ?_⟩
  · simp [brain_score_plot_highlight, h]
  · simp [brain_score_zoom_highlight, plot_highlight]

/-- Witness for `highlight_x_guard` at a concrete highlighted model
position with `x = 80 > 72`. -/
theorem highlight_x_guard_witness :
    brain_score_plot_highlight (0, 100) (0, 1) "densenet-169" 80 (1/2) = [] ∧
    brain_score_zoom_highlight (0, 100) (0, 1) "densenet-169" 80 (1/2) =
      plot_highlight (0, 100) (0, 1) "densenet-169" 80 (1/2) ∧
    brain_score_zoom_highlight (0, 100) (0, 1) "densenet-169" 80 (1/2) ≠ [] :=
  highlight_x_guard (0, 100) (0, 1) "densenet-169" 80 (1/2) (by norm_num)
